import Mathlib

/-!
Verification of the resource-pooling subsystem of the screen-13 renderer.

The development shallowly embeds the pooling code (src/gpu/pool/mod.rs), the
command-buffer fenced-drop machinery (src/driver/cmd_buf.rs) and the
descriptor-set allocator (src/driver/descriptor_set.rs).  Rust VecDeque values
are embedded as Lean lists whose head is the deque front (index 0) and whose
last element is the back (most recently pushed by push_back).  HashMap values
are embedded as association lists.  Opaque driver handles (names, the Driver,
vk handles) carry no observable state relevant to the verified properties and
are left out of the embedding; object identity is tracked through an explicit
fresh-id counter threaded through the pool state.
-/

namespace Screen13

/-! ## External driver / gfx-hal types (minimal faithful models) -/

/-- gfx_hal::pso::DescriptorType (external enum; only equality matters). -/
inductive DescriptorType where
  | Sampler
  | CombinedImageSampler
  | SampledImage
  | StorageImage
  | UniformTexelBuffer
  | StorageTexelBuffer
  | UniformBuffer
  | StorageBuffer
  | UniformBufferDynamic
  | StorageBufferDynamic
  | InputAttachment
deriving DecidableEq, Repr

/-- gfx_hal::buffer::Usage bitflags, embedded as a natural-number bit set. -/
abbrev BufferUsage := Nat

/-- BufferUsage::empty() is the empty flag set. -/
def BufferUsage.empty : BufferUsage := 0

/-- gfx_hal::pso::DescriptorRangeDesc: a (type, count) descriptor range. -/
structure DescriptorRangeDesc where
  ty : DescriptorType
  count : Nat
deriving DecidableEq, Repr

/-- ComputeMode (src/gpu, not under src/: only the two variants matched in
compute_sets are needed). -/
inductive ComputeMode where
  | CalculateVertexAttributes
  | DecodeRgbRgba
deriving DecidableEq, Repr

/-- BlendMode: Normal plus at least one other variant, because
graphics_sets matches Blend(Normal) specially and hits todo!() otherwise. -/
inductive BlendMode where
  | Normal
  | Add
deriving DecidableEq, Repr

/-- GraphicsMode: the variants matched in Pool::graphics_sets. -/
inductive GraphicsMode where
  | Blend (mode : BlendMode)
  | DrawLine
  | DrawMesh
  | DrawPointLight
  | DrawRectLight
  | DrawSpotlight
  | DrawSunlight
  | Font
  | FontOutline
  | Gradient
  | GradientTransparency
  | Texture
deriving DecidableEq, Repr

/-- Color render-pass sub-mode (opaque for our purposes). -/
abbrev ColorRenderPassMode := Nat

/-- Draw render-pass sub-mode (opaque for our purposes). -/
abbrev DrawRenderPassMode := Nat

/-- RenderPassMode: Color or Draw, as matched in Pool::render_pass. -/
inductive RenderPassMode where
  | Color (mode : ColorRenderPassMode)
  | Draw (mode : DrawRenderPassMode)
deriving DecidableEq, Repr

/-- A constructed render pass; only identity matters, so an id suffices. -/
abbrev RenderPass := Nat

/-- crate::math::Extent (2-D size). -/
abbrev Extent := Nat × Nat

/-- gfx_hal::format::Format (external enum; opaque, equality only). -/
abbrev Format := Nat

/-- gfx_hal::image::Layout (external enum; opaque). -/
abbrev ImageLayout := Nat

/-- gfx_hal::image::Usage bitflags. -/
abbrev ImageUsage := Nat

/-! ## Pooled objects

Each pooled object records the one attribute the pool's fitness predicate
reads (capacity, max_sets, size, ...) plus an id distinguishing object
identity, so reuse-versus-reconstruction is observable. -/

/-- A generic data buffer (Data, src/gpu, not under src/): the pool reads
item.capacity(). -/
structure Data where
  capacity : Nat
  id : Nat
deriving DecidableEq, Repr

/-- A compute pipeline: the pool reads item.max_sets(). -/
structure Compute where
  max_sets : Nat
  id : Nat
deriving DecidableEq, Repr

/-- A graphics pipeline: the pool reads item.max_sets(). -/
structure Graphics where
  max_sets : Nat
  id : Nat
deriving DecidableEq, Repr

/-- A pooled descriptor pool: the pool reads DescriptorPool::max_sets. -/
structure PooledDescriptorPool where
  max_sets : Nat
  id : Nat
deriving DecidableEq, Repr

/-- A device memory block: the pool reads Memory::size. -/
structure Memory where
  size : Nat
  id : Nat
deriving DecidableEq, Repr

/-- A command pool: recorded counts the commands recorded into it;
reset(false) clears them (gfx-hal CommandPool::reset, modelled per the spec:
a reset pool contains no stale recorded commands). -/
structure CommandPool where
  recorded : Nat
  id : Nat
deriving DecidableEq, Repr

/-- A 2-D texture (TextureRef of Image2d): the creation parameters passed to
Texture::new plus an identity. -/
structure Texture where
  dims : Extent
  fmt : Format
  layout : ImageLayout
  usage : ImageUsage
  layers : Nat
  samples : Nat
  mips : Nat
  id : Nat
deriving DecidableEq, Repr

/-! ## Pool keys (src/gpu/pool/mod.rs) -/

/-- DescriptorPoolKey: the Vec of (DescriptorType, usize) pairs collected from
the requested ranges.  The source does NOT sort it (a TODO remarks that it
should), so the embedded key is the order-sensitive list, exactly as collected. -/
structure DescriptorPoolKey where
  desc_ranges : List (DescriptorType × Nat)
deriving DecidableEq, Repr

/-- GraphicsKey: (graphics mode, render-pass mode, subpass index). -/
structure GraphicsKey where
  graphics_mode : GraphicsMode
  render_pass_mode : RenderPassMode
  subpass_idx : Nat
deriving DecidableEq, Repr

/-- TextureKey: dims, format, layers, mips, samples and usage. -/
structure TextureKey where
  dims : Extent
  fmt : Format
  layers : Nat
  mips : Nat
  samples : Nat
  usage : ImageUsage
deriving DecidableEq, Repr

/-! ## VecDeque and HashMap operations -/

/-- Embeds fn remove_last_by (src/gpu/pool/mod.rs:35-45).  The Rust loop runs
idx = 0 .. items.len() over the VecDeque, i.e. from the FRONT (oldest,
least-recently-pushed end), and removes the first entry satisfying f.  The
function's name and its TODO comment say it should remove by last; the loop
does not. -/
def remove_last_by {α : Type} (f : α → Bool) : List α → Option (α × List α)
  | [] => none
  | x :: xs =>
      if f x then some (x, xs)
      else
        match remove_last_by f xs with
        | some (y, ys) => some (y, x :: ys)
        | none => none

/-- The behavior the spec describes for remove_last_by: scan starting from the
most-recently-pushed (back) end and remove the first satisfying entry found
there. -/
def remove_last_by_spec {α : Type} (f : α → Bool) : List α → Option (α × List α)
  | [] => none
  | x :: xs =>
      match remove_last_by_spec f xs with
      | some (y, ys) => some (y, x :: ys)
      | none => if f x then some (x, xs) else none

/-- VecDeque::pop_back: remove and return the last (most recently pushed)
element. -/
def popBack {α : Type} : List α → Option (α × List α)
  | [] => none
  | x :: xs =>
      match popBack xs with
      | some (y, ys) => some (y, x :: ys)
      | none => some (x, [])

/-- VecDeque::push_back: append at the back. -/
def pushBack {α : Type} (q : List α) (x : α) : List α := q ++ [x]

/-- VecDeque::push_front: prepend at the front. -/
def pushFront {α : Type} (x : α) (q : List α) : List α := x :: q

/-- HashMap entry(k).or_insert_with(Default) read side: the queue stored at
key k, or the empty queue when the key is absent. -/
def lookupQ {κ α : Type} [DecidableEq κ] : List (κ × List α) → κ → List α
  | [], _ => []
  | (k1, q) :: rest, k => if k = k1 then q else lookupQ rest k

/-- HashMap write-back: store queue q at key k, inserting the entry if absent
(entry-or-insert followed by mutation of the stored queue). -/
def updateQ {κ α : Type} [DecidableEq κ] : List (κ × List α) → κ → List α → List (κ × List α)
  | [], k, q => [(k, q)]
  | (k1, q1) :: rest, k, q =>
      if k = k1 then (k1, q) :: rest else (k1, q1) :: updateQ rest k q

/-- HashMap lookup returning Option (for the render-pass registry). -/
def lookupOpt {κ α : Type} [DecidableEq κ] : List (κ × α) → κ → Option α
  | [], _ => none
  | (k1, v) :: rest, k => if k = k1 then some v else lookupOpt rest k

/-! ## The Pool state (struct Pool, src/gpu/pool/mod.rs:71-88)

The compilers and fences queues take part in no verified claim and are left
out.  nextId is the model's fresh-id source: every construction of a new
object consumes one id, so the number of ids consumed counts the objects
constructed and distinct ids distinguish object identities. -/

structure Pool where
  cmd_pools : List (Nat × List CommandPool)
  computes : List (ComputeMode × List Compute)
  data : List (BufferUsage × List Data)
  desc_pools : List (DescriptorPoolKey × List PooledDescriptorPool)
  graphics : List (GraphicsKey × List Graphics)
  lru_threshold : Nat
  memories : List (Nat × List Memory)
  render_passes : List (RenderPassMode × RenderPass)
  textures : List (TextureKey × List Texture)
  nextId : Nat
deriving DecidableEq, Repr

/-- const DEFAULT_LRU_THRESHOLD (src/gpu/pool/mod.rs:33). -/
def DEFAULT_LRU_THRESHOLD : Nat := 8

/-- impl Default for Pool (src/gpu/pool/mod.rs:443-459): all maps empty,
lru_threshold set to the default. -/
def Pool.default : Pool :=
  { cmd_pools := [], computes := [], data := [], desc_pools := [],
    graphics := [], lru_threshold := DEFAULT_LRU_THRESHOLD, memories := [],
    render_passes := [], textures := [], nextId := 0 }

/-! ## Acquire operations -/

/-- The shared shape of the fitness-scan acquire used by data_usage,
compute_sets, desc_pool, graphics_sets and memory: scan the queue with
remove_last_by for an entry satisfying fit; on a hit return it and the
shrunk queue; on a miss construct a new object (mk, consuming one fresh id)
and leave the queue as is (the new object goes into the Lease, not the
queue). -/
def acquireFit {α : Type} (fit : α → Bool) (mk : Nat → α) (q : List α) (fresh : Nat) :
    α × List α × Nat :=
  match remove_last_by fit q with
  | some (item, q1) => (item, q1, fresh)
  | none => (mk fresh, q, fresh + 1)

/-- Embeds Pool::data_usage (src/gpu/pool/mod.rs:182-205): key the data map by
usage, scan for item.capacity() >= len, construct Data::new(.., len, usage)
on a miss.  Data::new is not under src/; modelled from the spec: a new buffer
of capacity at least the requested length is constructed (capacity exactly
len here). -/
def Pool.data_usage (p : Pool) (len : Nat) (usage : BufferUsage) : Data × Pool :=
  let q := lookupQ p.data usage
  let r := acquireFit (fun item => len ≤ item.capacity)
    (fun fresh => { capacity := len, id := fresh }) q p.nextId
  (r.1, { p with data := updateQ p.data usage r.2.1, nextId := r.2.2 })

/-- Embeds Pool::data (src/gpu/pool/mod.rs:167-180): delegates to data_usage
with BufferUsage::empty(). -/
def Pool.dataAcquire (p : Pool) (len : Nat) : Data × Pool :=
  p.data_usage len BufferUsage.empty

/-- Modelled from the spec: the Compute constructors
(Compute::calc_vertex_attrs and Compute::decode_rgb_rgba) are not under
src/.  Their call site (src/gpu/pool/mod.rs:153-161) passes them only
(name, driver), so the constructed pipeline's max_sets is some fixed
function of the mode alone and cannot depend on the requested max_sets.
The available source does not determine that function; the body below is a
placeholder value, and no theorem in this development depends on which
value it is. -/
def compute_ctor_max_sets : ComputeMode → Nat := fun _ => 1

/-- Embeds Pool::compute_sets (src/gpu/pool/mod.rs:140-165): key the computes
map by mode, scan for item.max_sets() >= max_sets; on a miss, call the
mode-selected constructor with (name, driver) only, so the new pipeline's
max_sets is the constructor's mode-determined value (compute_ctor_max_sets),
not the requested one. -/
def Pool.compute_sets (p : Pool) (mode : ComputeMode) (max_sets : Nat) : Compute × Pool :=
  let q := lookupQ p.computes mode
  let r := acquireFit (fun item => max_sets ≤ item.max_sets)
    (fun fresh => { max_sets := compute_ctor_max_sets mode, id := fresh }) q p.nextId
  (r.1, { p with computes := updateQ p.computes mode r.2.1, nextId := r.2.2 })

/-- Embeds Pool::compute (src/gpu/pool/mod.rs:125-138): delegates to
compute_sets with max_sets = 1. -/
def Pool.compute (p : Pool) (mode : ComputeMode) : Compute × Pool :=
  p.compute_sets mode 1

/-- The key computed by Pool::desc_pool (src/gpu/pool/mod.rs:217-220): the
requested ranges mapped to (ty, count) pairs and collected IN ITERATION
ORDER; the source's TODO notes the missing sort. -/
def mkDescriptorPoolKey (desc_ranges : List DescriptorRangeDesc) : DescriptorPoolKey :=
  { desc_ranges := desc_ranges.map (fun r => (r.ty, r.count)) }

/-- Embeds Pool::desc_pool (src/gpu/pool/mod.rs:208-237): key by
mkDescriptorPoolKey, scan for DescriptorPool::max_sets >= max_sets,
construct DescriptorPool::new(driver, max_sets, desc_ranges) on a miss
(constructor not under src/; modelled from the spec: a capacity-bounded
allocator with the requested max_sets). -/
def Pool.desc_pool (p : Pool) (max_sets : Nat) (desc_ranges : List DescriptorRangeDesc) :
    PooledDescriptorPool × Pool :=
  let key := mkDescriptorPoolKey desc_ranges
  let q := lookupQ p.desc_pools key
  let r := acquireFit (fun item => max_sets ≤ item.max_sets)
    (fun fresh => { max_sets := max_sets, id := fresh }) q p.nextId
  (r.1, { p with desc_pools := updateQ p.desc_pools key r.2.1, nextId := r.2.2 })

/-- Embeds Pool::memory (src/gpu/pool/mod.rs:339-358): key the memories map by
memory type, scan for Memory::size >= size, construct Memory::new(driver,
mem_type, size) on a miss (constructor not under src/; modelled from the
spec: a block of the requested size). -/
def Pool.memory (p : Pool) (mem_type : Nat) (size : Nat) : Memory × Pool :=
  let q := lookupQ p.memories mem_type
  let r := acquireFit (fun item => size ≤ item.size)
    (fun fresh => { size := size, id := fresh }) q p.nextId
  (r.1, { p with memories := updateQ p.memories mem_type r.2.1, nextId := r.2.2 })

/-- Embeds Pool::render_pass (src/gpu/pool/mod.rs:360-368): memoize the
render pass for a mode, building it with the external color/draw builders on
first use (builders not under src/; modelled as constructing a fresh opaque
render pass). -/
def Pool.render_pass (p : Pool) (mode : RenderPassMode) : RenderPass × Pool :=
  match lookupOpt p.render_passes mode with
  | some rp => (rp, p)
  | none =>
      (p.nextId,
        { p with render_passes := p.render_passes ++ [(mode, p.nextId)],
                 nextId := p.nextId + 1 })

/-- The Blend(non-Normal) arm of the constructor match in Pool::graphics_sets
(src/gpu/pool/mod.rs:306-320) is todo!(), a panic. -/
def graphics_ctor_is_todo : GraphicsMode → Bool
  | .Blend .Normal => false
  | .Blend _ => true
  | _ => false

/-- A panic observed in the embedding (todo! or unimplemented!). -/
inductive PanicKind where
  | todoPanic
  | unimplementedPanic
deriving DecidableEq, Repr

/-- Embeds Pool::graphics_sets (src/gpu/pool/mod.rs:282-337): key by
(graphics_mode, render_pass_mode, subpass_idx); scan for item.max_sets() >=
max_sets; on a miss, select the constructor by graphics_mode (todo!() for a
non-Normal blend), resolve the render pass through the memoizing registry and
construct the pipeline with the requested max_sets (constructors not under
src/; modelled from the spec: construction uses the requested parameters, and
the source call site does forward max_sets). -/
def Pool.graphics_sets (p : Pool) (graphics_mode : GraphicsMode)
    (render_pass_mode : RenderPassMode) (subpass_idx : Nat) (max_sets : Nat) :
    Except PanicKind (Graphics × Pool) :=
  let key : GraphicsKey :=
    { graphics_mode := graphics_mode,
      render_pass_mode := render_pass_mode, subpass_idx := subpass_idx }
  let q := lookupQ p.graphics key
  match remove_last_by (fun item => max_sets ≤ item.max_sets) q with
  | some (item, q1) =>
      .ok (item, { p with graphics := updateQ p.graphics key q1 })
  | none =>
      let p1 := { p with graphics := updateQ p.graphics key q }
      if graphics_ctor_is_todo graphics_mode then .error PanicKind.todoPanic
      else
        let r := p1.render_pass render_pass_mode
        let p2 := r.2
        .ok ({ max_sets := max_sets, id := p2.nextId },
          { p2 with nextId := p2.nextId + 1 })

/-- Embeds Pool::graphics (src/gpu/pool/mod.rs:263-280): delegates to
graphics_sets with max_sets = 1. -/
def Pool.graphicsAcquire (p : Pool) (graphics_mode : GraphicsMode)
    (render_pass_mode : RenderPassMode) (subpass_idx : Nat) :
    Except PanicKind (Graphics × Pool) :=
  p.graphics_sets graphics_mode render_pass_mode subpass_idx 1

/-- Embeds gfx-hal CommandPool::reset(false), modelled per the spec: resetting
clears every recorded command. -/
def CommandPool.reset (c : CommandPool) : CommandPool := { c with recorded := 0 }

/-- CommandPool::new (driver constructor, not under src/; modelled from the
spec: a freshly created command pool; its recorded-command content is left
arbitrary by taking it from the fresh id so that the theorem about cmd_pool
cannot lean on new pools being clean by construction). -/
def CommandPool.new (fresh : Nat) : CommandPool := { recorded := fresh, id := fresh }

/-- Embeds Pool::cmd_pool (src/gpu/pool/mod.rs:92-112): pop the back of the
family's queue or construct a new pool, then unconditionally reset it before
wrapping it in the lease. -/
def Pool.cmd_pool (p : Pool) (family : Nat) : CommandPool × Pool :=
  let q := lookupQ p.cmd_pools family
  let r :=
    match popBack q with
    | some (item, q1) =>
        (item, { p with cmd_pools := updateQ p.cmd_pools family q1 })
    | none =>
        (CommandPool.new p.nextId,
         { p with cmd_pools := updateQ p.cmd_pools family q, nextId := p.nextId + 1 })
  (r.1.reset, r.2)

/-- Texture::new (not under src/; modelled from the spec: a new texture with
the requested creation parameters). -/
def Texture.new (dims : Extent) (fmt : Format) (layout : ImageLayout)
    (usage : ImageUsage) (layers : Nat) (samples : Nat) (mips : Nat)
    (fresh : Nat) : Texture :=
  { dims := dims, fmt := fmt, layout := layout, usage := usage,
    layers := layers, samples := samples, mips := mips, id := fresh }

/-- Embeds Pool::texture (src/gpu/pool/mod.rs:372-440): key by TextureKey and
pop the back of the queue (exact key match, no fitness scan).  On a miss the
source first push_fronts one extra spare instance built from the same
parameters and then returns a second, brand new instance, so a miss consumes
two fresh ids: the spare gets the first, the returned texture the second. -/
def Pool.texture (p : Pool) (dims : Extent) (fmt : Format) (layout : ImageLayout)
    (usage : ImageUsage) (layers : Nat) (mips : Nat) (samples : Nat) :
    Texture × Pool :=
  let key : TextureKey :=
    { dims := dims, fmt := fmt, layers := layers,
      mips := mips, samples := samples, usage := usage }
  let q := lookupQ p.textures key
  match popBack q with
  | some (item, q1) =>
      (item, { p with textures := updateQ p.textures key q1 })
  | none =>
      let spare := Texture.new dims fmt layout usage layers samples mips p.nextId
      let item := Texture.new dims fmt layout usage layers samples mips (p.nextId + 1)
      (item,
        { p with textures := updateQ p.textures key (pushFront spare q),
                 nextId := p.nextId + 2 })

/-! ## Lease release

The Lease type lives in src/gpu/pool/lease.rs, which is not under src/.
Modelled from the spec: a Lease exclusively owns its item together with a
shared handle to the idle queue it came from, and on drop pushes the item
onto the BACK of that queue (insertion order: back = most recently
released). -/

/-- Modelled from the spec: dropping a Lease of a Data buffer pushes it onto
the back of the queue it was leased from (the data queue keyed by usage). -/
def Pool.release_data (p : Pool) (usage : BufferUsage) (item : Data) : Pool :=
  { p with data := updateQ p.data usage (pushBack (lookupQ p.data usage) item) }

/-- Modelled from the spec: dropping a Lease of a descriptor pool pushes it
onto the back of its key's queue. -/
def Pool.release_desc_pool (p : Pool) (key : DescriptorPoolKey)
    (item : PooledDescriptorPool) : Pool :=
  { p with desc_pools := updateQ p.desc_pools key (pushBack (lookupQ p.desc_pools key) item) }

/-! ## Drain (src/gpu/pool/mod.rs:54-62, 240-242) -/

/-- struct Drain borrows the whole Pool. -/
structure Drain where
  pool : Pool
deriving DecidableEq, Repr

/-- Embeds Pool::drain (src/gpu/pool/mod.rs:240-242): wraps self. -/
def Pool.drain (p : Pool) : Drain := { pool := p }

/-- Embeds the Iterator impl for Drain (src/gpu/pool/mod.rs:56-62): next()
is unimplemented!(), i.e. every call panics; it never returns an Option at
all.  The result is either a panic (.error) or a normal return (.ok) carrying
Option Unit, Unit standing for Drain's Item type. -/
def Drain.next (_d : Drain) : Except PanicKind (Option Unit) :=
  .error PanicKind.unimplementedPanic

/-! ## Driver errors (src/driver, DriverError enum) -/

/-- DriverError: the coarse error kinds of the driver boundary. -/
inductive DriverError where
  | Unsupported
  | InvalidData
  | OutOfMemory
deriving DecidableEq, Repr

/-! ## CommandBuffer fenced drops (src/driver/cmd_buf.rs)

The observable CommandBuffer state for the fence-gating property: the fence's
signaled status and the droppables list (droppable identities as naturals).
The fence transitions themselves (pre-signaled at creation, reset to
unsignaled by a submission, signaled by the GPU on completion) are modelled
from the spec; push_fenced_drop, drop_fenced and has_executed are embedded
from src/driver/cmd_buf.rs. -/

structure CommandBufferState where
  fence_signaled : Bool
  droppables : List Nat
deriving DecidableEq, Repr

/-- Modelled from the spec: a fresh CommandBuffer's fence starts pre-signaled
(no pending work) and droppables starts empty (cmd_buf.rs:64: droppables:
vec![]). -/
def CommandBufferState.initial : CommandBufferState :=
  { fence_signaled := true, droppables := [] }

/-- Embeds CommandBuffer::has_executed (cmd_buf.rs:86-104) in the
device-healthy case: the non-blocking fence poll reports the fence status.
(The device-lost and unknown-error branches map to Err(InvalidData); they are
driver failures outside this state model.) -/
def CommandBufferState.has_executed (cb : CommandBufferState) : Except DriverError Bool :=
  .ok cb.fence_signaled

/-- The events of the fenced-drop lifecycle. -/
inductive CmdBufEv where
  | push_fenced_drop (thing : Nat)
  | submit
  | gpu_signal
  | drop_fenced
deriving DecidableEq, Repr

/-- One step of the fenced-drop lifecycle.
push_fenced_drop embeds cmd_buf.rs:107-109: droppables.push(Box::new(thing)),
an append at the end, nothing else.
submit and gpu_signal are modelled from the spec: a submission resets the
fence to unsignaled, GPU completion signals it.
drop_fenced embeds cmd_buf.rs:74-80: droppables.clear(); its guard is the
documented precondition that the caller has confirmed fence completion
(the claim's own hypothesis), so the step is refused while the fence is
unsignaled. -/
def CommandBufferState.step (cb : CommandBufferState) :
    CmdBufEv → Option CommandBufferState
  | .push_fenced_drop thing => some { cb with droppables := cb.droppables ++ [thing] }
  | .submit => some { cb with fence_signaled := false }
  | .gpu_signal => some { cb with fence_signaled := true }
  | .drop_fenced =>
      if cb.fence_signaled then some { cb with droppables := [] } else none

/-- The individual actions the CommandBuffer destructor can perform, in
order. -/
inductive DropAction where
  | wait_fence
  | free_command_buffer
  | free_command_pool
  | free_query_pool
  | free_fence
deriving DecidableEq, Repr

/-- Embeds impl Drop for CommandBuffer (cmd_buf.rs:152-173) as the trace of
actions it performs, as a function of whether the thread is panicking and
whether the final fence wait succeeds: during a panic unwind the body returns
immediately; otherwise it waits on the fence, and when that wait errs it
returns early WITHOUT freeing anything (cmd_buf.rs:162-164); only after a
successful wait does it free the command buffer, the command pool, the query
pool and the fence, in that order. -/
def command_buffer_drop (panicking : Bool) (wait_ok : Bool) : List DropAction :=
  if panicking then []
  else
    DropAction.wait_fence ::
      (if wait_ok then
        [DropAction.free_command_buffer, DropAction.free_command_pool,
         DropAction.free_query_pool, DropAction.free_fence]
      else [])

/-! ## DescriptorPool allocation (src/driver/descriptor_set.rs)

The observable state of one driver descriptor pool: its declared capacity
(info.max_sets) and the number of sets currently allocated from it.  The
native vkAllocateDescriptorSets behavior behind
device.allocate_descriptor_sets is not under src/ and is modelled from the
spec; the wrapper functions are embedded from descriptor_set.rs. -/

/-- A vk::DescriptorSet handle. -/
abbrev DescSet := Nat

structure DescriptorPoolState where
  max_sets : Nat
  allocated : Nat
deriving DecidableEq, Repr

/-- Embeds DescriptorPool::create (descriptor_set.rs:25-56): builds the
native pool with capacity info.max_sets; a fresh pool has no allocated sets
(native pool creation, modelled from the spec's capacity-bounded allocator). -/
def DescriptorPoolState.create (max_sets : Nat) : DescriptorPoolState :=
  { max_sets := max_sets, allocated := 0 }

/-- Modelled from the spec: the native device allocate-descriptor-sets call
(behind device.allocate_descriptor_sets, not under src/) hands out count sets
when the request fits the remaining declared capacity and otherwise fails
with an out-of-resources driver error, leaving the pool untouched. -/
def device_allocate_descriptor_sets (st : DescriptorPoolState) (count : Nat) :
    Except Unit (List DescSet × DescriptorPoolState) :=
  if st.allocated + count ≤ st.max_sets then
    .ok ((List.range count).map (fun i => st.allocated + i),
      { st with allocated := st.allocated + count })
  else
    .error ()

/-- Embeds DescriptorPool::allocate_descriptor_sets (descriptor_set.rs:65-92):
forwards to the device call and maps any driver failure to
DriverError::Unsupported; on failure the pool state is returned unchanged. -/
def allocate_descriptor_sets (st : DescriptorPoolState) (count : Nat) :
    Except DriverError (List DescSet) × DescriptorPoolState :=
  match device_allocate_descriptor_sets st count with
  | .ok (sets, st1) => (.ok sets, st1)
  | .error _ => (.error DriverError.Unsupported, st)

/-- Embeds DescriptorPool::allocate_descriptor_set (descriptor_set.rs:58-63):
allocate_descriptor_sets(this, layout, 1)?.remove(0), i.e. the single element
of the one-set allocation. -/
def allocate_descriptor_set (st : DescriptorPoolState) :
    Except DriverError DescSet × DescriptorPoolState :=
  match allocate_descriptor_sets st 1 with
  | (.ok sets, st1) => (.ok sets.headI, st1)
  | (.error e, st1) => (.error e, st1)

/-! ## Helper lemmas -/

/-- Whatever remove_last_by removes satisfies the predicate. -/
theorem remove_last_by_sat {α : Type} (f : α → Bool) (l : List α) (a : α) (l' : List α)
    (h : remove_last_by f l = some (a, l')) : f a = true := by
  induction l generalizing l' with
  | nil => simp [remove_last_by] at h
  | cons x xs ih =>
      rw [remove_last_by] at h
      by_cases hx : f x = true
      · simp [hx] at h
        rw [← h.1]
        exact hx
      · simp [Bool.not_eq_true] at hx
        simp [hx] at h
        cases hrec : remove_last_by f xs with
        | none => simp [hrec] at h
        | some r =>
            cases r with
            | mk y ys =>
                simp [hrec] at h
                obtain ⟨h1, h2⟩ := h
                subst h1
                exact ih ys hrec

/-- remove_last_by finds nothing in a queue with no satisfying entry. -/
theorem remove_last_by_eq_none {α : Type} (f : α → Bool) (l : List α)
    (h : ∀ a ∈ l, f a = false) : remove_last_by f l = none := by
  induction l with
  | nil => rfl
  | cons x xs ih =>
      rw [remove_last_by]
      simp [h x (by simp), ih (fun a ha => h a (by simp [ha]))]

/-- The object acquireFit hands out satisfies the fitness predicate whenever
the constructor's output does. -/
theorem acquireFit_fit {α : Type} (fit : α → Bool) (mk : Nat → α) (q : List α) (n : Nat)
    (hmk : fit (mk n) = true) : fit (acquireFit fit mk q n).1 = true := by
  unfold acquireFit
  cases h : remove_last_by fit q with
  | none => simpa using hmk
  | some r =>
      cases r with
      | mk a l => simpa using remove_last_by_sat fit q a l h

/-- On a miss acquireFit constructs exactly one object, from the next fresh
id, and leaves the queue unchanged. -/
theorem acquireFit_miss {α : Type} (fit : α → Bool) (mk : Nat → α) (q : List α) (n : Nat)
    (h : remove_last_by fit q = none) : acquireFit fit mk q n = (mk n, q, n + 1) := by
  simp [acquireFit, h]

/-- Reading back the key just written. -/
theorem lookupQ_updateQ {κ α : Type} [DecidableEq κ] (m : List (κ × List α)) (k : κ)
    (q : List α) : lookupQ (updateQ m k q) k = q := by
  induction m with
  | nil => simp [updateQ, lookupQ]
  | cons kv rest ih =>
      cases kv with
      | mk k1 q1 =>
          by_cases hk : k = k1
          · simp [updateQ, lookupQ, hk]
          · simp [updateQ, lookupQ, hk, ih]

/-! ## Claim theorems -/

/-- C1: the claim says every fitness-scan acquire removes the satisfying
entry nearest the most-recently-pushed (back) end.  The code scans from the
FRONT: on an idle data queue holding two fit buffers, with id 1 the most
recently pushed (back) entry, Pool::data_usage removes and returns the id 0
buffer at the front — the least recently pushed fit entry — while the
behavior the spec describes (remove_last_by_spec) would return the id 1
buffer.  This evaluates the code at the failing input. -/
theorem C1_acquire_scans_from_front_not_back :
    ((512 : Nat) ≤ (2048 : Nat) ∧ (512 : Nat) ≤ (1024 : Nat))
    ∧ (Pool.data_usage
        { Pool.default with data := [(0, [⟨2048, 0⟩, ⟨1024, 1⟩])], nextId := 2 }
        512 0).1 = (⟨2048, 0⟩ : Data)
    ∧ remove_last_by (fun item : Data => 512 ≤ item.capacity)
        [⟨2048, 0⟩, ⟨1024, 1⟩] = some (⟨2048, 0⟩, [⟨1024, 1⟩])
    ∧ remove_last_by_spec (fun item : Data => 512 ≤ item.capacity)
        [⟨2048, 0⟩, ⟨1024, 1⟩] = some (⟨1024, 1⟩, [⟨2048, 0⟩]) := by
  decide

/-- C3: the in-particular scenario of the claim holds (from an empty pool,
acquiring length 1024 constructs buffer id 0 of capacity 1024, and after a
release an acquire of length 512 returns that very buffer with no new
construction), but the general round-trip claim fails: starting from a data
queue already holding a second fit buffer B, leasing A, releasing A (pushing
it to the back) and acquiring again with a request both objects satisfy
returns B — the front entry — and not the previously released A.  This
evaluates the code at the failing input. -/
theorem C3_round_trip_reuse_at_failing_input :
    (let p0 := Pool.default
     let r1 := p0.data_usage 1024 0
     let p2 := r1.2.release_data 0 r1.1
     let r3 := p2.data_usage 512 0
     r1.1 = (⟨1024, 0⟩ : Data) ∧ (1024 : Nat) ≤ r1.1.capacity ∧ r1.2.nextId = 1
       ∧ r3.1 = r1.1 ∧ r3.2.nextId = 1)
    ∧ (let A : Data := ⟨4096, 0⟩
       let B : Data := ⟨2048, 1⟩
       let p0 : Pool := { Pool.default with data := [(0, [A, B])], nextId := 2 }
       let r1 := p0.data_usage 2048 0
       let p2 := r1.2.release_data 0 r1.1
       let r3 := p2.data_usage 512 0
       r1.1 = A ∧ lookupQ p2.data 0 = [B, A] ∧ (512 : Nat) ≤ A.capacity
         ∧ r3.1 = B ∧ r3.1 ≠ A ∧ r3.2.nextId = 2) := by
  decide

/-- C5: every command pool Pool::cmd_pool returns has been reset and so
contains no recorded commands, whether it was popped from the idle queue
(with arbitrarily many stale recorded commands) or newly constructed. -/
theorem C5_cmd_pool_always_reset (p : Pool) (family : Nat) :
    ((p.cmd_pool family).1).recorded = 0 := by
  unfold Pool.cmd_pool
  cases h : popBack (lookupQ p.cmd_pools family) with
  | none => simp [h, CommandPool.reset]
  | some r => simp [h, CommandPool.reset]

/-- C5 witness at a pool whose idle queue holds a stale command pool. -/
theorem C5_cmd_pool_always_reset_witness :
    ((Pool.cmd_pool
      { Pool.default with cmd_pools := [(3, [⟨99, 0⟩])], nextId := 1 } 3).1).recorded = 0 :=
  C5_cmd_pool_always_reset
    { Pool.default with cmd_pools := [(3, [⟨99, 0⟩])], nextId := 1 } 3

/-- C8: the claim says the descriptor-pool key is a SORTED set of
(binding-type, count) pairs, so reordered but equal range requests share one
idle queue.  The code collects the pairs in iteration order without sorting
(its TODO notes the missing sort): the two orderings of the same pairs
produce unequal keys, and concretely, after leasing and releasing a fit
descriptor pool under one ordering, a request under the reversed ordering
constructs a brand new pool instead of reusing the released one.  This
evaluates the code at the failing input. -/
theorem C8_desc_pool_key_not_sorted :
    mkDescriptorPoolKey [⟨.Sampler, 1⟩, ⟨.UniformBuffer, 2⟩]
      ≠ mkDescriptorPoolKey [⟨.UniformBuffer, 2⟩, ⟨.Sampler, 1⟩]
    ∧ (let p0 := Pool.default
       let a1 := p0.desc_pool 4 [⟨.Sampler, 1⟩, ⟨.UniformBuffer, 2⟩]
       let p1 := a1.2.release_desc_pool
         (mkDescriptorPoolKey [⟨.Sampler, 1⟩, ⟨.UniformBuffer, 2⟩]) a1.1
       let a2 := p1.desc_pool 4 [⟨.UniformBuffer, 2⟩, ⟨.Sampler, 1⟩]
       a1.1.max_sets = 4 ∧ a2.1 ≠ a1.1 ∧ a2.2.nextId = 2) := by
  decide

/-- C9 counterexample: the claim says Drain's next() returns None without
failing or panicking; on the default pool it instead panics through
unimplemented!, so it does not return None. -/
theorem C9_drain_next_counterexample :
    ¬ (Drain.next (Pool.drain Pool.default) = Except.ok none) := by
  simp [Drain.next, Pool.drain]

/-- C9 amended: iterating the value returned by drain() yields nothing
because every call to the iterator's next() panics via unimplemented!; it
never returns None (nor an item). -/
theorem C9_drain_next_panics (p : Pool) :
    Drain.next (Pool.drain p) = Except.error PanicKind.unimplementedPanic := rfl

/-- C2: in every step of the fenced-drop lifecycle, a droppable registered via
push_fenced_drop can only leave the droppables list through a drop_fenced
step, and that step happens only in a state whose fence is signaled, i.e.
where has_executed reports true; moreover push_fenced_drop itself only
appends to the droppables list. -/
theorem C2_fenced_drop_gating :
    (∀ (cb cb' : CommandBufferState) (e : CmdBufEv) (d : Nat),
        cb.step e = some cb' → d ∈ cb.droppables → d ∉ cb'.droppables →
          e = CmdBufEv.drop_fenced ∧ cb.has_executed = Except.ok true)
    ∧ (∀ (cb : CommandBufferState) (thing : Nat),
        cb.step (CmdBufEv.push_fenced_drop thing)
          = some { cb with droppables := cb.droppables ++ [thing] }) := by
  constructor
  · intro cb cb' e d hstep hin hout
    cases e with
    | push_fenced_drop t =>
        exfalso
        simp [CommandBufferState.step] at hstep
        apply hout
        rw [← hstep]
        simp [hin]
    | submit =>
        exfalso
        simp [CommandBufferState.step] at hstep
        apply hout
        rw [← hstep]
        exact hin
    | gpu_signal =>
        exfalso
        simp [CommandBufferState.step] at hstep
        apply hout
        rw [← hstep]
        exact hin
    | drop_fenced =>
        by_cases hf : cb.fence_signaled
        · exact ⟨rfl, by simp [CommandBufferState.has_executed, hf]⟩
        · simp [CommandBufferState.step, hf] at hstep
  · intro cb thing
    rfl

/-- C2 witness: a concrete drop_fenced step clearing droppable 7 from a
signaled command buffer. -/
theorem C2_fenced_drop_gating_witness :
    CmdBufEv.drop_fenced = CmdBufEv.drop_fenced
    ∧ CommandBufferState.has_executed ⟨true, [7]⟩ = Except.ok true :=
  C2_fenced_drop_gating.1 ⟨true, [7]⟩ ⟨true, []⟩ CmdBufEv.drop_fenced 7
    (by decide) (by decide) (by decide)

/-- C6: an allocation request that exceeds the pool's remaining declared
capacity returns the Unsupported (out-of-resources) error kind and leaves the
pool state exactly as it was; the embedded allocator is a total function, so
no panic is involved. -/
theorem C6_alloc_beyond_capacity (st : DescriptorPoolState) (count : Nat)
    (h : st.max_sets < st.allocated + count) :
    allocate_descriptor_sets st count = (Except.error DriverError.Unsupported, st) := by
  have hnot : ¬ (st.allocated + count ≤ st.max_sets) := by omega
  simp [allocate_descriptor_sets, device_allocate_descriptor_sets, hnot]

/-- C6 witness: the spec scenario — a pool created with max_sets = 4, four
sets allocated, then a fifth allocation fails with Unsupported and leaves the
pool unaffected. -/
theorem C6_alloc_beyond_capacity_witness :
    (DescriptorPoolState.create 4).max_sets = 4
    ∧ allocate_descriptor_sets (DescriptorPoolState.create 4) 4
        = (Except.ok [0, 1, 2, 3], ⟨4, 4⟩)
    ∧ allocate_descriptor_sets ⟨4, 4⟩ 1
        = (Except.error DriverError.Unsupported, ⟨4, 4⟩) :=
  ⟨rfl, rfl, C6_alloc_beyond_capacity ⟨4, 4⟩ 1 (by decide)⟩

/-- C7 counterexample: the claim says the destructor swallows a fence-wait
error and still frees the command buffer, command pool, query pool and fence.
At the concrete input (not panicking, fence wait fails) the destructor's
trace stops after the wait: none of the four frees happens. -/
theorem C7_destructor_counterexample :
    command_buffer_drop false false = [DropAction.wait_fence]
    ∧ DropAction.free_command_buffer ∉ command_buffer_drop false false
    ∧ DropAction.free_command_pool ∉ command_buffer_drop false false
    ∧ DropAction.free_query_pool ∉ command_buffer_drop false false
    ∧ DropAction.free_fence ∉ command_buffer_drop false false := by
  decide

/-- C7 amended: the destructor body is skipped entirely while unwinding from
a panic; otherwise it waits for the fence one last time, and when that wait
fails it returns early, swallowing the error and freeing nothing; only after
a successful wait does it free the command buffer, command pool, query pool
and fence, in that order. -/
theorem C7_destructor_amended (wait_ok : Bool) :
    command_buffer_drop true wait_ok = []
    ∧ command_buffer_drop false true
        = [DropAction.wait_fence, DropAction.free_command_buffer,
           DropAction.free_command_pool, DropAction.free_query_pool,
           DropAction.free_fence]
    ∧ command_buffer_drop false false = [DropAction.wait_fence] := by
  cases wait_ok <;> decide

/-- C10: the convenience acquires equal their general forms with default
arguments: Pool::compute is compute_sets with max_sets = 1, Pool::data is
data_usage with BufferUsage::empty(), Pool::graphics is graphics_sets with
max_sets = 1, and DescriptorPool::allocate_descriptor_set returns the single
element of allocate_descriptor_sets with count = 1 (whose successful result
always holds exactly one set). -/
theorem C10_convenience_delegation :
    (∀ (p : Pool) (mode : ComputeMode),
        Pool.compute p mode = Pool.compute_sets p mode 1)
    ∧ (∀ (p : Pool) (len : Nat),
        Pool.dataAcquire p len = Pool.data_usage p len BufferUsage.empty)
    ∧ (∀ (p : Pool) (gm : GraphicsMode) (rpm : RenderPassMode) (si : Nat),
        Pool.graphicsAcquire p gm rpm si = Pool.graphics_sets p gm rpm si 1)
    ∧ (∀ st : DescriptorPoolState,
        allocate_descriptor_set st
          = match allocate_descriptor_sets st 1 with
            | (Except.ok sets, st1) => (Except.ok sets.headI, st1)
            | (Except.error e, st1) => (Except.error e, st1))
    ∧ (∀ (st st1 : DescriptorPoolState) (sets : List DescSet),
        allocate_descriptor_sets st 1 = (Except.ok sets, st1) → sets.length = 1) := by
  refine ⟨fun p mode => rfl, fun p len => rfl, fun p gm rpm si => rfl,
    fun st => rfl, ?_⟩
  intro st st1 sets h
  unfold allocate_descriptor_sets device_allocate_descriptor_sets at h
  by_cases hc : st.allocated + 1 ≤ st.max_sets
  · simp [hc] at h
    rw [← h.1]
    simp
  · simp [hc] at h

/-- Fitness and construction-count facts of the acquire operations: a
fitness-scan acquire returns an object whose capacity attribute meets the
request for data buffers, descriptor pools, graphics pipelines and memory
(the kinds whose constructors visibly receive the requested capacity), both
when recycled and when newly constructed; when no idle object satisfies the
predicate, exactly one new object is constructed (the fresh-id counter
advances by one and the returned object carries the fresh id), except for
Pool::texture where a miss constructs exactly two (the counter advances by
two, the returned texture carries the second id, and the first — the idle
spare with the same key — is seeded into the queue). -/
theorem pool_fitness_and_construction_counts :
    (∀ (p : Pool) (len usage : Nat), len ≤ ((p.data_usage len usage).1).capacity)
    ∧ (∀ (p : Pool) (ms : Nat) (ranges : List DescriptorRangeDesc),
        ms ≤ ((p.desc_pool ms ranges).1).max_sets)
    ∧ (∀ (p : Pool) (mt size : Nat), size ≤ ((p.memory mt size).1).size)
    ∧ (∀ (p : Pool) (gm : GraphicsMode) (rpm : RenderPassMode) (si ms : Nat)
        (item : Graphics) (p' : Pool),
        p.graphics_sets gm rpm si ms = .ok (item, p') → ms ≤ item.max_sets)
    ∧ (∀ (p : Pool) (len usage : Nat),
        (∀ d ∈ lookupQ p.data usage, ¬ len ≤ d.capacity) →
          (p.data_usage len usage).2.nextId = p.nextId + 1
            ∧ (p.data_usage len usage).1.id = p.nextId)
    ∧ (∀ (p : Pool) (mode : ComputeMode) (ms : Nat),
        (∀ c ∈ lookupQ p.computes mode, ¬ ms ≤ c.max_sets) →
          (p.compute_sets mode ms).2.nextId = p.nextId + 1
            ∧ (p.compute_sets mode ms).1.id = p.nextId)
    ∧ (∀ (p : Pool) (ms : Nat) (ranges : List DescriptorRangeDesc),
        (∀ d ∈ lookupQ p.desc_pools (mkDescriptorPoolKey ranges), ¬ ms ≤ d.max_sets) →
          (p.desc_pool ms ranges).2.nextId = p.nextId + 1
            ∧ (p.desc_pool ms ranges).1.id = p.nextId)
    ∧ (∀ (p : Pool) (mt size : Nat),
        (∀ m ∈ lookupQ p.memories mt, ¬ size ≤ m.size) →
          (p.memory mt size).2.nextId = p.nextId + 1
            ∧ (p.memory mt size).1.id = p.nextId)
    ∧ (∀ (p : Pool) (gm : GraphicsMode) (rpm : RenderPassMode) (si ms rp : Nat),
        (∀ g ∈ lookupQ p.graphics ⟨gm, rpm, si⟩, ¬ ms ≤ g.max_sets) →
        graphics_ctor_is_todo gm = false →
        lookupOpt p.render_passes rpm = some rp →
          ∃ (item : Graphics) (p' : Pool),
            p.graphics_sets gm rpm si ms = .ok (item, p')
              ∧ item.id = p.nextId ∧ p'.nextId = p.nextId + 1)
    ∧ (∀ (p : Pool) (dims : Extent) (fmt layout usage layers mips samples : Nat),
        lookupQ p.textures ⟨dims, fmt, layers, mips, samples, usage⟩ = [] →
          (p.texture dims fmt layout usage layers mips samples).2.nextId = p.nextId + 2
            ∧ (p.texture dims fmt layout usage layers mips samples).1.id = p.nextId + 1
            ∧ lookupQ (p.texture dims fmt layout usage layers mips samples).2.textures
                ⟨dims, fmt, layers, mips, samples, usage⟩
                = [Texture.new dims fmt layout usage layers samples mips p.nextId]) := by
  refine ⟨?_, ?_, ?_, ?_, ?_, ?_, ?_, ?_, ?_, ?_⟩
  · intro p len usage
    cases h : remove_last_by (fun item : Data => decide (len ≤ item.capacity))
        (lookupQ p.data usage) with
    | none => simp [Pool.data_usage, acquireFit, h]
    | some r =>
        cases r with
        | mk a q1 =>
            simp [Pool.data_usage, acquireFit, h]
            exact of_decide_eq_true (remove_last_by_sat _ _ a q1 h)
  · intro p ms ranges
    cases h : remove_last_by (fun item : PooledDescriptorPool => decide (ms ≤ item.max_sets))
        (lookupQ p.desc_pools (mkDescriptorPoolKey ranges)) with
    | none => simp [Pool.desc_pool, acquireFit, h]
    | some r =>
        cases r with
        | mk a q1 =>
            simp [Pool.desc_pool, acquireFit, h]
            exact of_decide_eq_true (remove_last_by_sat _ _ a q1 h)
  · intro p mt size
    cases h : remove_last_by (fun item : Memory => decide (size ≤ item.size))
        (lookupQ p.memories mt) with
    | none => simp [Pool.memory, acquireFit, h]
    | some r =>
        cases r with
        | mk a q1 =>
            simp [Pool.memory, acquireFit, h]
            exact of_decide_eq_true (remove_last_by_sat _ _ a q1 h)
  · intro p gm rpm si ms item p' h
    cases hrm : remove_last_by (fun it : Graphics => decide (ms ≤ it.max_sets))
        (lookupQ p.graphics ⟨gm, rpm, si⟩) with
    | some r =>
        cases r with
        | mk a q1 =>
            simp [Pool.graphics_sets, hrm] at h
            rw [← h.1]
            exact of_decide_eq_true (remove_last_by_sat _ _ a q1 hrm)
    | none =>
        cases htodo : graphics_ctor_is_todo gm with
        | true => simp [Pool.graphics_sets, hrm, htodo] at h
        | false =>
            simp [Pool.graphics_sets, hrm, htodo] at h
            rw [← h.1]
  · intro p len usage hmiss
    have hnone : remove_last_by (fun item : Data => decide (len ≤ item.capacity))
        (lookupQ p.data usage) = none :=
      remove_last_by_eq_none _ _ (fun a ha => decide_eq_false (hmiss a ha))
    simp [Pool.data_usage, acquireFit, hnone]
  · intro p mode ms hmiss
    have hnone : remove_last_by (fun item : Compute => decide (ms ≤ item.max_sets))
        (lookupQ p.computes mode) = none :=
      remove_last_by_eq_none _ _ (fun a ha => decide_eq_false (hmiss a ha))
    simp [Pool.compute_sets, acquireFit, hnone]
  · intro p ms ranges hmiss
    have hnone : remove_last_by (fun item : PooledDescriptorPool => decide (ms ≤ item.max_sets))
        (lookupQ p.desc_pools (mkDescriptorPoolKey ranges)) = none :=
      remove_last_by_eq_none _ _ (fun a ha => decide_eq_false (hmiss a ha))
    simp [Pool.desc_pool, acquireFit, hnone]
  · intro p mt size hmiss
    have hnone : remove_last_by (fun item : Memory => decide (size ≤ item.size))
        (lookupQ p.memories mt) = none :=
      remove_last_by_eq_none _ _ (fun a ha => decide_eq_false (hmiss a ha))
    simp [Pool.memory, acquireFit, hnone]
  · intro p gm rpm si ms rp hmiss htodo hrp
    have hnone : remove_last_by (fun it : Graphics => decide (ms ≤ it.max_sets))
        (lookupQ p.graphics ⟨gm, rpm, si⟩) = none :=
      remove_last_by_eq_none _ _ (fun a ha => decide_eq_false (hmiss a ha))
    have hres : p.graphics_sets gm rpm si ms
        = .ok (⟨ms, p.nextId⟩,
            { p with
                graphics := updateQ p.graphics ⟨gm, rpm, si⟩ (lookupQ p.graphics ⟨gm, rpm, si⟩),
                nextId := p.nextId + 1 }) := by
      simp [Pool.graphics_sets, hnone, htodo, Pool.render_pass, hrp]
    exact ⟨_, _, hres, rfl, rfl⟩
  · intro p dims fmt layout usage layers mips samples hq
    refine ⟨?_, ?_, ?_⟩
    · simp [Pool.texture, hq, popBack, Texture.new]
    · simp [Pool.texture, hq, popBack, Texture.new]
    · simp [Pool.texture, hq, popBack, pushFront, lookupQ_updateQ, Texture.new]

/-- What the source determines about compute_sets fitness: a compute
pipeline recycled from the idle queue always satisfies the request, while a
cache miss constructs a pipeline whose max_sets is the constructor's
mode-determined value, independent of the requested max_sets (the call site
passes the constructors only (name, driver)). -/
theorem compute_sets_fitness_facts :
    (∀ (p : Pool) (mode : ComputeMode) (ms : Nat) (item : Compute) (q1 : List Compute),
        remove_last_by (fun it : Compute => decide (ms ≤ it.max_sets))
          (lookupQ p.computes mode) = some (item, q1) →
        ms ≤ ((p.compute_sets mode ms).1).max_sets)
    ∧ (∀ (p : Pool) (mode : ComputeMode) (ms : Nat),
        (∀ c ∈ lookupQ p.computes mode, ¬ ms ≤ c.max_sets) →
          ((p.compute_sets mode ms).1).max_sets = compute_ctor_max_sets mode) := by
  constructor
  · intro p mode ms item q1 h
    simp [Pool.compute_sets, acquireFit, h]
    exact of_decide_eq_true (remove_last_by_sat _ _ item q1 h)
  · intro p mode ms hmiss
    have hnone : remove_last_by (fun it : Compute => decide (ms ≤ it.max_sets))
        (lookupQ p.computes mode) = none :=
      remove_last_by_eq_none _ _ (fun a ha => decide_eq_false (hmiss a ha))
    simp [Pool.compute_sets, acquireFit, hnone]

/-- C10 witness: a concrete delegation instance and a concrete one-set
allocation. -/
theorem C10_convenience_delegation_witness :
    Pool.compute Pool.default ComputeMode.DecodeRgbRgba
      = Pool.compute_sets Pool.default ComputeMode.DecodeRgbRgba 1
    ∧ ([0] : List DescSet).length = 1 :=
  ⟨C10_convenience_delegation.1 Pool.default ComputeMode.DecodeRgbRgba,
   C10_convenience_delegation.2.2.2.2 (DescriptorPoolState.create 4) ⟨4, 1⟩ [0] rfl⟩

end Screen13
